import Mathlib

/-!
Verification of the ppapi dispatch-shim fragment.

Shallow embedding of:
  * src/trunk/cpp/module.cc  (the PPP_Instance / PPP_Printing callback shims
    and the Module registry),
  * src/proxy/plugin_url_loader.h  (a header-only class declaration).

Modelling conventions:
  * Opaque C handles (PP_Instance, PP_Module, PP_Resource, ...) are Int.
    The null resource value (what `Resource().pp_resource()` returns for a
    default-constructed Resource) is 0.
  * `std::map<PP_Instance, Instance*>` is a partial function
    `PP_Instance → Option Instance`; `operator[]=` is pointwise update,
    `erase` sets the key to `none`, `find` is application.
  * The plugin-defined virtuals of `pp::Module` (CreateInstance, Init,
    QuerySupportedPrintOutputFormats) and the per-instance virtuals of
    `pp::Instance` are fields holding arbitrary pure functions.
  * `QuerySupportedPrintOutputFormats(uint32_t* format_count)` returns a
    pointer (possibly NULL) and stores a count through the out-parameter:
    it is modelled as a pair `Option (List PP_PrintOutputFormat) × Nat`
    (returned array, stored count).
  * Each shim takes the value `Module::Get()` returned as an
    `Option Module`; shims that mutate the registry return the updated
    module as well.
  * Void callbacks have no return value; their observable behaviour is the
    call they forward, so `Instance_ViewChanged` is modelled as returning
    the argument pair it passes to `instance->ViewChanged` (or `none` when
    it does not forward), and `Printing_End` as `some ()` exactly when it
    invokes `instance->PrintEnd()`.
-/

namespace pp

/-- Opaque per-element plugin-instance handle (`PP_Instance`). -/
abbrev PP_Instance := Int

/-- Opaque module handle (`PP_Module`). -/
abbrev PP_Module := Int

/-- Opaque resource handle (`PP_Resource`); 0 is the null resource. -/
abbrev PP_Resource := Int

/-- Opaque input-event payload (`PP_Event`). -/
abbrev PP_Event := Int

/-- Opaque rectangle payload (`PP_Rect`). -/
abbrev PP_Rect := Int

/-- Print output format enumerator (`PP_PrintOutputFormat`). -/
abbrev PP_PrintOutputFormat := Nat

/-- Opaque page-number range (`PP_PrintPageNumberRange`). -/
abbrev PP_PrintPageNumberRange := Int

/-- Opaque browser-side interface pointer (non-null `const void*`). -/
abbrev PPB_InterfacePtr := Nat

/-- A `PP_Var` value. A default-constructed `pp::Var` holds the undefined
var, so `Var().Detach()` is `PP_Var.undefined`; `Detach()` hands out the
wrapped `PP_Var` unchanged. -/
inductive PP_Var where
  | undefined : PP_Var
  | var (tag : Nat) (value : Int) : PP_Var
deriving DecidableEq

/-- `PP_PrintSettings`: only the `format` field is ever read by this code;
the remaining fields are collapsed into one opaque payload. -/
structure PP_PrintSettings where
  format : PP_PrintOutputFormat
  otherFields : Int

/-- `pp::URLLoader` as constructed by `Instance_HandleDocumentLoad`: a thin
wrapper around the resource handle it is built from. -/
structure URLLoader where
  pp_resource : PP_Resource

/-- A per-instance plugin object (`pp::Instance`). Its virtual methods are
plugin-defined; they are modelled as arbitrary pure response functions.
Void virtuals (ViewChanged, PrintEnd) carry no data and are omitted; the
shims record their invocation instead. -/
structure Instance where
  Init : Nat → List String → List String → Bool
  HandleDocumentLoad : URLLoader → Bool
  HandleEvent : PP_Event → Bool
  GetInstanceObject : PP_Var
  PrintBegin : PP_PrintSettings → Int
  PrintPages : List PP_PrintPageNumberRange → Nat → PP_Resource

/-- The `pp::Module` object: browser bookkeeping fields plus the registry
`current_instances_` and the plugin-defined virtuals. `get_browser_interface_`
is a nullable function pointer, hence `Option`. -/
structure Module where
  pp_module_ : PP_Module
  get_browser_interface_ : Option (String → Option PPB_InterfacePtr)
  core_ : Option PPB_InterfacePtr
  current_instances_ : PP_Instance → Option Instance
  CreateInstance : PP_Instance → Option Instance
  QuerySupportedPrintOutputFormats : Option (List PP_PrintOutputFormat) × Nat
  Init : Bool

/-- Modelled from the spec: the interface-name macro `PPP_INSTANCE_INTERFACE`
from ppapi/c/ppp_instance.h, a header not under src/. Only its identity as a
string distinct from the other interface names matters here. -/
def PPP_INSTANCE_INTERFACE : String := "PPP_Instance;0.2"

/-- Modelled from the spec: the interface-name macro `PPP_PRINTING_INTERFACE`
from ppapi/c/ppp_printing.h, a header not under src/. -/
def PPP_PRINTING_INTERFACE : String := "PPP_Printing(Dev);0.1"

/-- Modelled from the spec: the interface-name macro `PPB_CORE_INTERFACE`
from ppapi/c/ppb_core.h, a header not under src/. -/
def PPB_CORE_INTERFACE : String := "PPB_Core;0.2"

/-- `Module::InstanceForPPInstance` (module.cc lines 219-224): look the
handle up in `current_instances_`, returning NULL when absent. Under the
map-as-function model, `find` plus the end-iterator check is application. -/
def Module.InstanceForPPInstance (m : Module) (instance_h : PP_Instance) : Option Instance :=
  m.current_instances_ instance_h

/-- `Instance_New` (module.cc lines 41-51). Mutates the registry, so it
returns the updated module alongside the `bool` result. -/
def Instance_New (module_singleton : Option Module) (instance_h : PP_Instance) :
    Option Module × Bool :=
  match module_singleton with
  | none => (none, false)
  | some m =>
    match m.CreateInstance instance_h with
    | some obj =>
      (some { m with current_instances_ :=
                fun k => if k = instance_h then some obj else m.current_instances_ k },
       true)
    | none => (some m, false)

/-- `Instance_Delete` (module.cc lines 53-66). The entry is erased from the
map before `delete obj` runs; the returned module is therefore the registry
state in effect while the object's destructor executes, and the second
component is the object handed to `delete` (`none` when nothing is
destroyed). -/
def Instance_Delete (module_singleton : Option Module) (instance_h : PP_Instance) :
    Option Module × Option Instance :=
  match module_singleton with
  | none => (none, none)
  | some m =>
    match m.current_instances_ instance_h with
    | none => (some m, none)
    | some obj =>
      (some { m with current_instances_ :=
                fun k => if k = instance_h then none else m.current_instances_ k },
       some obj)

/-- `Instance_Initialize` (module.cc lines 68-79). -/
def Instance_Initialize (module_singleton : Option Module) (pp_instance : PP_Instance)
    (argc : Nat) (argn : List String) (argv : List String) : Bool :=
  match module_singleton with
  | none => false
  | some m =>
    match m.InstanceForPPInstance pp_instance with
    | none => false
    | some inst => inst.Init argc argn argv

/-- `Instance_HandleDocumentLoad` (module.cc lines 81-90): wraps the raw
resource in a `URLLoader` before forwarding. -/
def Instance_HandleDocumentLoad (module_singleton : Option Module) (pp_instance : PP_Instance)
    (pp_url_loader : PP_Resource) : Bool :=
  match module_singleton with
  | none => false
  | some m =>
    match m.InstanceForPPInstance pp_instance with
    | none => false
    | some inst => inst.HandleDocumentLoad { pp_resource := pp_url_loader }

/-- `Instance_HandleEvent` (module.cc lines 92-101). -/
def Instance_HandleEvent (module_singleton : Option Module) (pp_instance : PP_Instance)
    (event : PP_Event) : Bool :=
  match module_singleton with
  | none => false
  | some m =>
    match m.InstanceForPPInstance pp_instance with
    | none => false
    | some inst => inst.HandleEvent event

/-- `Instance_GetInstanceObject` (module.cc lines 103-111): failure paths
return `Var().Detach()`, the undefined var; the success path returns the
instance's var, detached. -/
def Instance_GetInstanceObject (module_singleton : Option Module)
    (pp_instance : PP_Instance) : PP_Var :=
  match module_singleton with
  | none => PP_Var.undefined
  | some m =>
    match m.InstanceForPPInstance pp_instance with
    | none => PP_Var.undefined
    | some inst => inst.GetInstanceObject

/-- `Instance_ViewChanged` (module.cc lines 113-123): void; the observable
is the forwarded call `instance->ViewChanged(*position, *clip)`, recorded as
the argument pair, `none` when nothing is forwarded. -/
def Instance_ViewChanged (module_singleton : Option Module) (pp_instance : PP_Instance)
    (position : PP_Rect) (clip : PP_Rect) : Option (PP_Rect × PP_Rect) :=
  match module_singleton with
  | none => none
  | some m =>
    match m.InstanceForPPInstance pp_instance with
    | none => none
    | some _ => some (position, clip)

/-- `Printing_QuerySupportedFormats` (module.cc lines 137-145): with no
module it stores 0 through `format_count` and returns NULL; otherwise it is
the module virtual's (pointer, stored count) pair unchanged. -/
def Printing_QuerySupportedFormats (module_singleton : Option Module) :
    Option (List PP_PrintOutputFormat) × Nat :=
  match module_singleton with
  | none => (none, 0)
  | some m => m.QuerySupportedPrintOutputFormats

/-- The index loop of `Printing_Begin` (module.cc lines 162-165): scan
`formats[0], ..., formats[format_count-1]` for `target`. A `format_count`
exceeding the array length would read out of bounds in C; such reads are
modelled as failing to match. -/
def formatMatchLoop : List PP_PrintOutputFormat → Nat → PP_PrintOutputFormat → Bool
  | _, 0, _ => false
  | [], _ + 1, _ => false
  | f :: rest, n + 1, target => if f = target then true else formatMatchLoop rest n target

/-- `Printing_Begin` (module.cc lines 147-167): looks the instance up, asks
the module for its supported formats, returns 0 when the format array is
NULL, and forwards to `instance->PrintBegin` only when the requested format
occurs among the first `format_count` entries. -/
def Printing_Begin (module_singleton : Option Module) (pp_instance : PP_Instance)
    (print_settings : PP_PrintSettings) : Int :=
  match module_singleton with
  | none => 0
  | some m =>
    match m.InstanceForPPInstance pp_instance with
    | none => 0
    | some inst =>
      match m.QuerySupportedPrintOutputFormats with
      | (none, _) => 0
      | (some formats, format_count) =>
        if formatMatchLoop formats format_count print_settings.format then
          inst.PrintBegin print_settings
        else
          0

/-- `Printing_PrintPages` (module.cc lines 169-179): failure paths return
`Resource().pp_resource()`, the 0 resource. -/
def Printing_PrintPages (module_singleton : Option Module) (pp_instance : PP_Instance)
    (page_ranges : List PP_PrintPageNumberRange) (page_range_count : Nat) : PP_Resource :=
  match module_singleton with
  | none => 0
  | some m =>
    match m.InstanceForPPInstance pp_instance with
    | none => 0
    | some inst => inst.PrintPages page_ranges page_range_count

/-- `Printing_End` (module.cc lines 181-189): void; `some ()` records that
`instance->PrintEnd()` was invoked. -/
def Printing_End (module_singleton : Option Module) (pp_instance : PP_Instance) :
    Option Unit :=
  match module_singleton with
  | none => none
  | some m =>
    match m.InstanceForPPInstance pp_instance with
    | none => none
    | some _ => some ()

/-- The static `PPP_Instance` callback table (module.cc lines 125-133). -/
structure PPP_Instance_Table where
  New : Option Module → PP_Instance → Option Module × Bool
  Delete : Option Module → PP_Instance → Option Module × Option Instance
  Initialize : Option Module → PP_Instance → Nat → List String → List String → Bool
  HandleDocumentLoad : Option Module → PP_Instance → PP_Resource → Bool
  HandleEvent : Option Module → PP_Instance → PP_Event → Bool
  GetInstanceObject : Option Module → PP_Instance → PP_Var
  ViewChanged : Option Module → PP_Instance → PP_Rect → PP_Rect → Option (PP_Rect × PP_Rect)

/-- `static PPP_Instance instance_interface` (module.cc lines 125-133). -/
def instance_interface : PPP_Instance_Table :=
  { New := Instance_New
    Delete := Instance_Delete
    Initialize := Instance_Initialize
    HandleDocumentLoad := Instance_HandleDocumentLoad
    HandleEvent := Instance_HandleEvent
    GetInstanceObject := Instance_GetInstanceObject
    ViewChanged := Instance_ViewChanged }

/-- The static `PPP_Printing` callback table (module.cc lines 191-196). -/
structure PPP_Printing_Table where
  QuerySupportedFormats : Option Module → Option (List PP_PrintOutputFormat) × Nat
  Begin : Option Module → PP_Instance → PP_PrintSettings → Int
  PrintPages : Option Module → PP_Instance → List PP_PrintPageNumberRange → Nat → PP_Resource
  End : Option Module → PP_Instance → Option Unit

/-- `static PPP_Printing printing_interface` (module.cc lines 191-196). -/
def printing_interface : PPP_Printing_Table :=
  { QuerySupportedFormats := Printing_QuerySupportedFormats
    Begin := Printing_Begin
    PrintPages := Printing_PrintPages
    End := Printing_End }

/-- The two static table addresses `Module::GetInstanceInterface` can
return. -/
inductive InterfaceTableAddr where
  | instanceInterfaceTable : InterfaceTableAddr
  | printingInterfaceTable : InterfaceTableAddr
deriving DecidableEq

/-- `Module::GetInstanceInterface` (module.cc lines 206-213): pure string
comparison against the two interface-name macros; reads no module state. -/
def Module.GetInstanceInterface (interface_name : String) : Option InterfaceTableAddr :=
  if interface_name = PPP_INSTANCE_INTERFACE then some InterfaceTableAddr.instanceInterfaceTable
  else if interface_name = PPP_PRINTING_INTERFACE then some InterfaceTableAddr.printingInterfaceTable
  else none

/-- `Module::GetBrowserInterface` (module.cc lines 215-217): calls straight
through `get_browser_interface_`. Calling through a null pointer is
undefined behaviour in the source; the embedding returns `none` there and
the pass-through theorem assumes the pointer has been set. -/
def Module.GetBrowserInterface (m : Module) (interface_name : String) :
    Option PPB_InterfacePtr :=
  match m.get_browser_interface_ with
  | some f => f interface_name
  | none => none

/-- `Module::InternalInit` (module.cc lines 226-236): stores both arguments,
queries the browser for the core interface through the freshly stored
pointer, stores the result in `core_`, fails when it is NULL, and only
otherwise calls the plugin-defined `Init()`. -/
def Module.InternalInit (m : Module) (mod : PP_Module)
    (get_browser_interface : String → Option PPB_InterfacePtr) : Module × Bool :=
  let m1 : Module :=
    { m with pp_module_ := mod, get_browser_interface_ := some get_browser_interface }
  let core := m1.GetBrowserInterface PPB_CORE_INTERFACE
  let m2 : Module := { m1 with core_ := core }
  match core with
  | none => (m2, false)
  | some _ => (m2, m2.Init)

/-- One browser-driven lifecycle call on the registry. In `newE`, `created`
is the value the plugin-defined virtual `CreateInstance` returns at that
call (the virtual allocates a fresh object on each call, so its result is
per-event data rather than a fixed function of the handle). -/
inductive RegEvent where
  | newE (h : PP_Instance) (created : Option Instance) : RegEvent
  | deleteE (h : PP_Instance) : RegEvent

/-- Apply one lifecycle call to the module via the real shims. For `newE`
the module's `CreateInstance` is pointed at the event's oracle value before
calling `Instance_New`. The shims return `some` of the updated module when
given `some m`; `getD m` merely unwraps that. -/
def stepRegEvent (m : Module) (ev : RegEvent) : Module :=
  match ev with
  | .newE h created =>
    (Instance_New (some { m with CreateInstance := fun _ => created }) h).1.getD m
  | .deleteE h =>
    (Instance_Delete (some m) h).1.getD m

/-- Run a sequence of lifecycle calls through the shims. -/
def runRegistry (m : Module) (trace : List RegEvent) : Module :=
  trace.foldl stepRegEvent m

/-- Spec-side reading of the registry, per key: the effect of one lifecycle
event on what is stored under handle `h`. A successful `newE` on `h` stores
the created object, a failed one changes nothing, and a `deleteE` on `h`
leaves nothing stored. -/
def stepKey (acc : Option Instance) (ev : RegEvent) (h : PP_Instance) : Option Instance :=
  match ev with
  | .newE h' created =>
    if h' = h then (match created with | some obj => some obj | none => acc) else acc
  | .deleteE h' => if h' = h then none else acc

/-- Spec-side definition, following the claim's words: the instance object
most recently stored under `h` by `Instance_New` and not since removed,
`none` when no such entry exists. -/
def lastStored (trace : List RegEvent) (h : PP_Instance) : Option Instance :=
  trace.foldl (fun acc ev => stepKey acc ev h) none

/-- Shape of a C++ class declaration appearing in a header, as far as the
URL-loader claim needs it: which member functions the header declares, and
whether copy construction and assignment are disallowed. -/
structure CppClassDecl where
  name : String
  declaredMemberFunctions : List String
  copyAndAssignDisallowed : Bool
deriving DecidableEq

/-- Transcription of src/proxy/plugin_url_loader.h lines 14-20: class
`PluginURLLoader` with the single declared (static) member function
`GetInterface` and, via `NACL_DISALLOW_COPY_AND_ASSIGN` (a macro whose
definition is not under src/; modelled from its documented meaning),
disallowed copy construction and assignment. No member is defined in this
repository. -/
def pluginURLLoaderHeader : CppClassDecl :=
  { name := "PluginURLLoader"
    declaredMemberFunctions := ["GetInterface"]
    copyAndAssignDisallowed := true }

/-! Concrete fixtures used by witnesses and counterexamples. -/

/-- A concrete per-instance object for witnesses. -/
def wInstance : Instance :=
  { Init := fun _ _ _ => true
    HandleDocumentLoad := fun loader => loader.pp_resource = 9
    HandleEvent := fun e => e = 4
    GetInstanceObject := PP_Var.var 1 2
    PrintBegin := fun _ => 5
    PrintPages := fun _ _ => 3 }

/-- A concrete module for witnesses: handle 1 registered to `wInstance`,
supported print formats `[2, 3]` with stored count 2. -/
def wModule : Module :=
  { pp_module_ := 0
    get_browser_interface_ := none
    core_ := none
    current_instances_ := fun k => if k = 1 then some wInstance else none
    CreateInstance := fun _ => some wInstance
    QuerySupportedPrintOutputFormats := (some [2, 3], 2)
    Init := true }

/-- A concrete module with an empty registry. -/
def wEmptyModule : Module :=
  { wModule with current_instances_ := fun _ => none }

/-- A concrete browser-supplied interface lookup function. -/
def wBrowserFun : String → Option PPB_InterfacePtr :=
  fun s => if s = PPB_CORE_INTERFACE then some 10 else none

/-- `wModule` with the browser lookup pointer set. -/
def wModuleB : Module :=
  { wModule with get_browser_interface_ := some wBrowserFun }

/-- A browser lookup function that knows no interfaces. -/
def wGbiNone : String → Option PPB_InterfacePtr := fun _ => none

/-- A concrete lifecycle trace for the registry witness. -/
def wTrace : List RegEvent :=
  [RegEvent.newE 1 (some wInstance), RegEvent.deleteE 2, RegEvent.newE 2 (some wInstance)]

/-! Theorems. -/

/-- C1: `Module::GetInstanceInterface` is a pure string-compare dispatch:
it returns the `instance_interface` table address for `PPP_INSTANCE_INTERFACE`,
the `printing_interface` table address for `PPP_PRINTING_INTERFACE`, and NULL
for every other string. -/
theorem getInstanceInterface_string_dispatch :
    Module.GetInstanceInterface PPP_INSTANCE_INTERFACE
        = some InterfaceTableAddr.instanceInterfaceTable ∧
    Module.GetInstanceInterface PPP_PRINTING_INTERFACE
        = some InterfaceTableAddr.printingInterfaceTable ∧
    ∀ s : String, s ≠ PPP_INSTANCE_INTERFACE → s ≠ PPP_PRINTING_INTERFACE →
      Module.GetInstanceInterface s = none := by
  refine ⟨rfl, rfl, fun s h1 h2 => ?_⟩
  simp [Module.GetInstanceInterface, h1, h2]

/-- Witness for C1 at the concrete non-interface string "Other". -/
theorem getInstanceInterface_string_dispatch_witness :
    ("Other" ≠ PPP_INSTANCE_INTERFACE) ∧ ("Other" ≠ PPP_PRINTING_INTERFACE) ∧
    Module.GetInstanceInterface "Other" = none :=
  ⟨by decide, by decide,
    getInstanceInterface_string_dispatch.2.2 "Other" (by decide) (by decide)⟩

/-- C5: with `Module::Get()` NULL, every callback in the two static tables
performs no instance call and no registry mutation, and returns its failure
value: false for the bool callbacks, 0 for `Begin`, the 0 (null) resource
for `PrintPages`, NULL with `*format_count = 0` for `QuerySupportedFormats`,
the undefined var for `GetInstanceObject`; the void callbacks forward
nothing and `Delete` destroys nothing. -/
theorem callbacks_null_module_failure :
    (∀ h, instance_interface.New none h = (none, false)) ∧
    (∀ h, instance_interface.Delete none h = (none, none)) ∧
    (∀ h argc argn argv, instance_interface.Initialize none h argc argn argv = false) ∧
    (∀ h r, instance_interface.HandleDocumentLoad none h r = false) ∧
    (∀ h e, instance_interface.HandleEvent none h e = false) ∧
    (∀ h, instance_interface.GetInstanceObject none h = PP_Var.undefined) ∧
    (∀ h p c, instance_interface.ViewChanged none h p c = none) ∧
    (printing_interface.QuerySupportedFormats none = (none, 0)) ∧
    (∀ h ps, printing_interface.Begin none h ps = 0) ∧
    (∀ h prs c, printing_interface.PrintPages none h prs c = 0) ∧
    (∀ h, printing_interface.End none h = none) :=
  ⟨fun _ => rfl, fun _ => rfl, fun _ _ _ _ => rfl, fun _ _ => rfl, fun _ _ => rfl,
    fun _ => rfl, fun _ _ _ => rfl, rfl, fun _ _ => rfl, fun _ _ _ => rfl, fun _ => rfl⟩

/-- C6: `Module::GetBrowserInterface` is pure pass-through: whenever the
browser-supplied lookup pointer has been stored, the result is exactly that
function applied to the name. -/
theorem getBrowserInterface_passthrough (m : Module)
    (f : String → Option PPB_InterfacePtr) (hset : m.get_browser_interface_ = some f)
    (interface_name : String) :
    m.GetBrowserInterface interface_name = f interface_name := by
  simp [Module.GetBrowserInterface, hset]

/-- Witness for C6 on a concrete module and name. -/
theorem getBrowserInterface_passthrough_witness :
    (wModuleB.get_browser_interface_ = some wBrowserFun) ∧
    wModuleB.GetBrowserInterface "PPB_Testing;0.1" = wBrowserFun "PPB_Testing;0.1" :=
  ⟨rfl, getBrowserInterface_passthrough wModuleB wBrowserFun rfl "PPB_Testing;0.1"⟩

/-- Counterexample to C7 as stated: the URL loader header does declare a
member function, so its declared-member list is not empty. -/
theorem pluginURLLoader_declares_member_function :
    pluginURLLoaderHeader.declaredMemberFunctions ≠ [] := by
  decide

/-- C7 amended: the URL loader header declares the `PluginURLLoader` class
with exactly one member function, the static `GetInterface`, plus disallowed
copy construction and assignment; no definition exists in this repository. -/
theorem pluginURLLoader_header_decl :
    pluginURLLoaderHeader.declaredMemberFunctions = ["GetInterface"] ∧
    pluginURLLoaderHeader.copyAndAssignDisallowed = true :=
  ⟨rfl, rfl⟩

/-- C10: when the browser lookup yields NULL for the core interface,
`Module::InternalInit` returns false and never calls `Init()` (the result is
false for every value of the plugin-defined `Init`), yet `pp_module_` and
`get_browser_interface_` are already overwritten with the arguments. -/
theorem internalInit_core_failure_no_rollback (m : Module) (mod : PP_Module)
    (gbi : String → Option PPB_InterfacePtr) (hcore : gbi PPB_CORE_INTERFACE = none) :
    (∀ b : Bool, (Module.InternalInit { m with Init := b } mod gbi).2 = false) ∧
    (Module.InternalInit m mod gbi).1.pp_module_ = mod ∧
    (Module.InternalInit m mod gbi).1.get_browser_interface_ = some gbi := by
  refine ⟨fun b => ?_, ?_, ?_⟩ <;>
    simp [Module.InternalInit, Module.GetBrowserInterface, hcore]

/-- Witness for C10 with a lookup function that knows no interfaces. -/
theorem internalInit_core_failure_no_rollback_witness :
    (wGbiNone PPB_CORE_INTERFACE = none) ∧
    (Module.InternalInit wEmptyModule 7 wGbiNone).1.pp_module_ = 7 :=
  ⟨rfl, (internalInit_core_failure_no_rollback wEmptyModule 7 wGbiNone rfl).2.1⟩

/-- C8: `Instance_New` returns true exactly when the module singleton exists
and `CreateInstance` produces an object; in that case the registry afterwards
maps the handle to that object and is untouched elsewhere; when it returns
false the registry is unchanged. -/
theorem instance_new_atomic (mo : Option Module) (h : PP_Instance) :
    ((Instance_New mo h).2 = true ↔
      ∃ m obj, mo = some m ∧ m.CreateInstance h = some obj) ∧
    (∀ m obj, mo = some m → m.CreateInstance h = some obj →
      ∃ m', (Instance_New mo h).1 = some m' ∧
        m'.current_instances_ h = some obj ∧
        ∀ k, k ≠ h → m'.current_instances_ k = m.current_instances_ k) ∧
    ((Instance_New mo h).2 = false → (Instance_New mo h).1 = mo) := by
  cases mo with
  | none =>
    refine ⟨by simp [Instance_New], fun m obj hmo => absurd hmo (by simp), fun _ => rfl⟩
  | some m =>
    cases hc : m.CreateInstance h with
    | none =>
      refine ⟨by simp [Instance_New, hc], fun m' obj hm hobj => ?_, fun _ => ?_⟩
      · rw [Option.some.injEq] at hm
        subst hm
        exact absurd hobj (by simp [hc])
      · simp [Instance_New, hc]
    | some obj =>
      refine ⟨by simp [Instance_New, hc],
        fun m' obj' hm hobj => ?_, fun hfalse => ?_⟩
      · rw [Option.some.injEq] at hm
        subst hm
        rw [hc, Option.some.injEq] at hobj
        subst hobj
        refine ⟨{ m with current_instances_ :=
            fun k => if k = h then some obj else m.current_instances_ k }, ?_, ?_, ?_⟩
        · simp [Instance_New, hc]
        · simp
        · intro k hk
          simp [hk]
      · exact absurd hfalse (by simp [Instance_New, hc])

/-- Witness for C8 on a concrete empty module and handle 5. -/
theorem instance_new_atomic_witness :
    (wEmptyModule.CreateInstance 5 = some wInstance) ∧
    ∃ m', (Instance_New (some wEmptyModule) 5).1 = some m' ∧
      m'.current_instances_ 5 = some wInstance ∧
      ∀ k, k ≠ 5 → m'.current_instances_ k = wEmptyModule.current_instances_ k :=
  ⟨rfl, (instance_new_atomic (some wEmptyModule) 5).2.1 wEmptyModule wInstance rfl rfl⟩

/-- C4: whenever `Instance_Delete` destroys an object, the registry state in
effect while the destructor runs (the returned module) no longer resolves
the handle: the entry is erased before the object is destroyed. -/
theorem instance_delete_erases_before_destroy (m : Module) (h : PP_Instance)
    (obj : Instance) (hdestroy : (Instance_Delete (some m) h).2 = some obj) :
    ∃ m', (Instance_Delete (some m) h).1 = some m' ∧
      m'.InstanceForPPInstance h = none := by
  cases hf : m.current_instances_ h with
  | none => simp [Instance_Delete, hf] at hdestroy
  | some obj' =>
    refine ⟨{ m with current_instances_ :=
        fun k => if k = h then none else m.current_instances_ k }, ?_, ?_⟩
    · simp [Instance_Delete, hf]
    · simp [Module.InstanceForPPInstance]

/-- Witness for C4: deleting handle 1 of `wModule` destroys `wInstance` and
the mid-destruction registry no longer resolves handle 1. -/
theorem instance_delete_erases_before_destroy_witness :
    ((Instance_Delete (some wModule) 1).2 = some wInstance) ∧
    ∃ m', (Instance_Delete (some wModule) 1).1 = some m' ∧
      m'.InstanceForPPInstance 1 = none :=
  ⟨rfl, instance_delete_erases_before_destroy wModule 1 wInstance rfl⟩

/-- When the stored count equals the array length, the index loop of
`Printing_Begin` finds the target exactly when it is a member of the
array. -/
theorem formatMatchLoop_length (fl : List PP_PrintOutputFormat)
    (t : PP_PrintOutputFormat) :
    formatMatchLoop fl fl.length t = true ↔ t ∈ fl := by
  induction fl with
  | nil => simp [formatMatchLoop]
  | cons f rest ih =>
    by_cases hft : f = t
    · simp [formatMatchLoop, hft]
    · have hft' : ¬ t = f := fun hh => hft hh.symm
      simp [formatMatchLoop, hft, hft', ih]

/-- Counterexample to C2 as stated: handle 1 is registered to `wInstance`
and the module singleton exists, yet `Printing_Begin` returns 0 while the
per-instance method `PrintBegin` returns 5 on the same settings (format 4 is
not among the supported formats), so not every shim returns the instance
method's result unchanged. -/
theorem printing_begin_not_pure_passthrough :
    (wModule.InstanceForPPInstance 1 = some wInstance) ∧
    Printing_Begin (some wModule) 1 { format := 4, otherFields := 0 } = 0 ∧
    wInstance.PrintBegin { format := 4, otherFields := 0 } = 5 :=
  ⟨rfl, rfl, rfl⟩

/-- C2 amended: for every registered handle (module singleton present), the
callbacks `Initialize`, `HandleDocumentLoad`, `HandleEvent`,
`GetInstanceObject`, `ViewChanged`, `PrintPages` and `End` forward to the
per-instance object and return its result unchanged; `Begin` alone adds
logic, forwarding `PrintBegin`'s result only when the requested format is
among the supported formats and returning 0 otherwise. -/
theorem callbacks_passthrough_except_printing_begin (m : Module) (h : PP_Instance)
    (inst : Instance) (hreg : m.InstanceForPPInstance h = some inst) :
    (∀ argc argn argv, Instance_Initialize (some m) h argc argn argv
        = inst.Init argc argn argv) ∧
    (∀ r, Instance_HandleDocumentLoad (some m) h r
        = inst.HandleDocumentLoad { pp_resource := r }) ∧
    (∀ e, Instance_HandleEvent (some m) h e = inst.HandleEvent e) ∧
    (Instance_GetInstanceObject (some m) h = inst.GetInstanceObject) ∧
    (∀ p c, Instance_ViewChanged (some m) h p c = some (p, c)) ∧
    (∀ prs cnt, Printing_PrintPages (some m) h prs cnt = inst.PrintPages prs cnt) ∧
    (Printing_End (some m) h = some ()) ∧
    (∀ ps fl, m.QuerySupportedPrintOutputFormats = (some fl, fl.length) →
      Printing_Begin (some m) h ps
        = if ps.format ∈ fl then inst.PrintBegin ps else 0) := by
  refine ⟨fun argc argn argv => ?_, fun r => ?_, fun e => ?_, ?_, fun p c => ?_,
    fun prs cnt => ?_, ?_, fun ps fl hq => ?_⟩
  · simp [Instance_Initialize, hreg]
  · simp [Instance_HandleDocumentLoad, hreg]
  · simp [Instance_HandleEvent, hreg]
  · simp [Instance_GetInstanceObject, hreg]
  · simp [Instance_ViewChanged, hreg]
  · simp [Printing_PrintPages, hreg]
  · simp [Printing_End, hreg]
  · by_cases hmem : ps.format ∈ fl
    · simp [Printing_Begin, hreg, hq, hmem,
        (formatMatchLoop_length fl ps.format).mpr hmem]
    · cases hml : formatMatchLoop fl fl.length ps.format with
      | false => simp [Printing_Begin, hreg, hq, hmem, hml]
      | true => exact absurd ((formatMatchLoop_length fl ps.format).mp hml) hmem

/-- Witness for the amended C2 on a concrete registered handle. -/
theorem callbacks_passthrough_witness :
    (wModule.InstanceForPPInstance 1 = some wInstance) ∧
    Instance_HandleEvent (some wModule) 1 4 = wInstance.HandleEvent 4 :=
  ⟨rfl, (callbacks_passthrough_except_printing_begin wModule 1 wInstance rfl).2.2.1 4⟩

/-- C9: for a registered handle, `Printing_Begin` forwards to `PrintBegin`
and returns its result exactly when the requested format occurs in the
returned formats array (count equal to its length); when the format is
absent it returns 0, and when the formats array is NULL it returns 0, in
both cases for every possible `PrintBegin` (so without calling it). -/
theorem printing_begin_format_filter (m : Module) (h : PP_Instance)
    (inst : Instance) (hreg : m.InstanceForPPInstance h = some inst) :
    (∀ fl ps, m.QuerySupportedPrintOutputFormats = (some fl, fl.length) →
      (ps.format ∈ fl → Printing_Begin (some m) h ps = inst.PrintBegin ps) ∧
      (ps.format ∉ fl → Printing_Begin (some m) h ps = 0)) ∧
    (∀ c ps, m.QuerySupportedPrintOutputFormats = (none, c) →
      Printing_Begin (some m) h ps = 0) := by
  constructor
  · intro fl ps hq
    constructor
    · intro hmem
      simp [Printing_Begin, hreg, hq,
        (formatMatchLoop_length fl ps.format).mpr hmem]
    · intro hmem
      cases hml : formatMatchLoop fl fl.length ps.format with
      | false => simp [Printing_Begin, hreg, hq, hml]
      | true => exact absurd ((formatMatchLoop_length fl ps.format).mp hml) hmem
  · intro c ps hq
    simp [Printing_Begin, hreg, hq]

/-- Witness for C9: format 3 is supported by `wModule`, so `Printing_Begin`
returns `wInstance.PrintBegin`'s result. -/
theorem printing_begin_format_filter_witness :
    (wModule.InstanceForPPInstance 1 = some wInstance) ∧
    (wModule.QuerySupportedPrintOutputFormats = (some [2, 3], [2, 3].length)) ∧
    ((3 : PP_PrintOutputFormat) ∈ [2, 3]) ∧
    Printing_Begin (some wModule) 1 { format := 3, otherFields := 0 }
      = wInstance.PrintBegin { format := 3, otherFields := 0 } :=
  ⟨rfl, rfl, by decide,
    ((printing_begin_format_filter wModule 1 wInstance rfl).1 [2, 3]
      { format := 3, otherFields := 0 } rfl).1 (by decide)⟩

/-- Effect of one lifecycle event on the registry, viewed at a single
key: running the real shim agrees with the per-key spec reading. -/
theorem stepRegEvent_key (m : Module) (ev : RegEvent) (h : PP_Instance) :
    (stepRegEvent m ev).current_instances_ h = stepKey (m.current_instances_ h) ev h := by
  cases ev with
  | newE h' created =>
    cases created with
    | none =>
      show m.current_instances_ h
          = if h' = h then m.current_instances_ h else m.current_instances_ h
      simp
    | some obj =>
      show (if h = h' then some obj else m.current_instances_ h)
          = (if h' = h then some obj else m.current_instances_ h)
      by_cases hh : h = h'
      · simp [hh]
      · have hh' : ¬ h' = h := fun e => hh e.symm
        simp [hh, hh']
  | deleteE h' =>
    cases hf : m.current_instances_ h' with
    | none =>
      by_cases hh : h' = h
      · subst hh
        simp [stepRegEvent, Instance_Delete, stepKey, hf]
      · simp [stepRegEvent, Instance_Delete, stepKey, hf, hh]
    | some obj =>
      by_cases hh : h' = h
      · subst hh
        simp [stepRegEvent, Instance_Delete, stepKey, hf]
      · have hh' : ¬ h = h' := fun e => hh e.symm
        simp [stepRegEvent, Instance_Delete, stepKey, hf, hh, hh']

/-- Running a trace through the real shims, viewed at a single key, is the
fold of the per-key spec reading. -/
theorem runRegistry_key (h : PP_Instance) :
    ∀ (trace : List RegEvent) (m : Module),
      (runRegistry m trace).current_instances_ h =
        trace.foldl (fun acc ev => stepKey acc ev h) (m.current_instances_ h) := by
  intro trace
  induction trace with
  | nil => intro m; rfl
  | cons ev rest ih =>
    intro m
    have h1 : runRegistry m (ev :: rest) = runRegistry (stepRegEvent m ev) rest := rfl
    rw [h1, ih (stepRegEvent m ev), stepRegEvent_key]
    rfl

/-- C3: starting from an empty registry, after any sequence of browser
lifecycle calls, `Module::InstanceForPPInstance` returns exactly the object
most recently stored under the handle by `Instance_New` and not since
removed, and NULL when no such entry exists. -/
theorem instanceForPPInstance_last_stored (m0 : Module) (trace : List RegEvent)
    (h : PP_Instance) (hempty : ∀ k, m0.current_instances_ k = none) :
    (runRegistry m0 trace).InstanceForPPInstance h = lastStored trace h := by
  unfold Module.InstanceForPPInstance lastStored
  rw [runRegistry_key h trace m0, hempty h]

/-- Witness for C3 on a concrete trace. -/
theorem instanceForPPInstance_last_stored_witness :
    (∀ k, wEmptyModule.current_instances_ k = none) ∧
    (runRegistry wEmptyModule wTrace).InstanceForPPInstance 1 = lastStored wTrace 1 :=
  ⟨fun _ => rfl, instanceForPPInstance_last_stored wEmptyModule wTrace 1 (fun _ => rfl)⟩

end pp
